import Mathlib

/-!
# PSwitch racing wheel: serial decoder and report synthesis

A shallow embedding of `Joystick.c`: the receive interrupt `USART1_RX_vect`
(frame accumulator), `parseLine` (packet decoder), the global controller
snapshot and `GetNextReport` (report synthesis), followed by theorems about
them.
-/

namespace Joystick

/-! ## Data model -/

/-- An 8-bit unsigned value (`uint8_t`, or a `char` seen through a `uint8_t*`). -/
abbrev Byte := Fin 256

/-- Capacity of the line buffer: `#define MAX_BUFFER 1024`. -/
def MAX_BUFFER : Nat := 1024

/-- The line buffer `char b[MAX_BUFFER]`, indexed by position. -/
abbrev Buffer := Fin MAX_BUFFER → Byte

/-- The constants of `Joystick.h` used by `Joystick.c`. The header is not among
the sources, so its constants are parameters of the embedding. The stick centre
is stored in `uint8_t` globals and report fields, hence a byte. -/
structure Header where
  STICK_CENTER : Byte
  HAT_TOP : Nat
  HAT_RIGHT : Nat
  HAT_BOTTOM : Nat
  HAT_LEFT : Nat
  HAT_CENTER : Nat
  SWITCH_RELEASE : Nat
  SWITCH_START : Nat
  SWITCH_A : Nat
  SWITCH_B : Nat
  SWITCH_X : Nat
  SWITCH_Y : Nat
  SWITCH_L : Nat
  SWITCH_R : Nat

/-- The globals `lastLX`, `lastLY`, `firstButtons`, `secondButtons`. -/
structure Snapshot where
  lastLX : Byte
  lastLY : Byte
  firstButtons : Byte
  secondButtons : Byte

/-- The globals of the translation unit that the decoder path touches: the
snapshot, the line buffer `b` and the 8-bit length counter `uint8_t l`. -/
structure Globals where
  snap : Snapshot
  b : Buffer
  l : Fin 256

/-- The fields of `USB_JoystickReport_Input_t` that `GetNextReport` assigns. The
type is declared in `Joystick.h`; the stick fields receive the byte `lastLX`,
while `Button` and `HAT` only ever hold header constants and ORs of them. -/
structure Report where
  Button : Nat
  HAT : Nat
  LX : Byte
  LY : Byte
  RX : Byte
  RY : Byte

/-! ## Packet decoder -/

/-- The first position of the line buffer. -/
def idx0 : Fin MAX_BUFFER := ⟨0, by decide⟩

/-- The second position of the line buffer. -/
def idx1 : Fin MAX_BUFFER := ⟨1, by decide⟩

/-- The third position of the line buffer. -/
def idx2 : Fin MAX_BUFFER := ⟨2, by decide⟩

/-- `void parseLine(char *line, uint32_t count)`: reads `data[0]`, `data[1]`,
`data[2]` of the line through a `uint8_t*`; `count` and the locals `t`, `c` are
never consulted. -/
def parseLine (s : Snapshot) (line : Buffer) (count : Nat) : Snapshot :=
  let data : Buffer := line
  if data idx0 = 241 then
    { s with lastLX := data idx1 }
  else if data idx0 = 240 then
    s
  else if data idx0 = 242 then
    let s1 : Snapshot :=
      if data idx1 = 3 then { s with firstButtons := 0 }
      else { s with firstButtons := data idx1 }
    if data idx2 = 3 then { s1 with secondButtons := 0 }
    else { s1 with secondButtons := data idx2 }
  else
    s

/-! ## Frame accumulator -/

/-- The receive interrupt `ISR(USART1_RX_vect)` on the received byte `c`
(the value of `fgetc(stdin)`). `'\n'` is 10 and `'\r'` is 13. On `'\n'` the
buffer is handed to `parseLine`, then `l = 0` and the buffer is zeroed by
`memset`; any other byte except `'\r'` is stored by `b[l++] = c` under the
guard `l < MAX_BUFFER`, the increment being that of a `uint8_t`. The block
under `Serial_IsSendReady()` is empty in the source and has no counterpart. -/
def USART1_RX_vect (g : Globals) (c : Byte) : Globals :=
  if c = 10 then
    { snap := parseLine g.snap g.b g.l.val
      b := fun _ => 0
      l := 0 }
  else if h : c ≠ 13 ∧ g.l.val < MAX_BUFFER then
    { snap := g.snap
      b := Function.update g.b ⟨g.l.val, h.2⟩ c
      l := ⟨(g.l.val + 1) % 256, Nat.mod_lt _ (by decide)⟩ }
  else
    g

/-- The interrupt run once per received byte, in arrival order. -/
def feed (g : Globals) (bytes : List Byte) : Globals :=
  bytes.foldl USART1_RX_vect g

/-- An empty accumulator (`l = 0`, every byte of `b` zero) next to a snapshot. -/
def emptyAcc (s : Snapshot) : Globals :=
  { snap := s, b := fun _ => 0, l := 0 }

/-- The state at start-up: the initialisers of the globals. -/
def init (H : Header) : Globals :=
  emptyAcc { lastLX := H.STICK_CENTER, lastLY := H.STICK_CENTER,
             firstButtons := 0, secondButtons := 0 }

/-! ## Report synthesis -/

/-- `void GetNextReport(USB_JoystickReport_Input_t* const ReportData)`, reading
the snapshot `s`; `r` is the previous content of `*ReportData`, which the
initial `memset` clears. Statements are kept in source order. -/
def GetNextReport (H : Header) (s : Snapshot) (r : Report) : Report :=
  let r : Report := { r with Button := 0, HAT := 0, LX := 0, LY := 0, RX := 0, RY := 0 }
  let r := { r with LX := H.STICK_CENTER }
  let r := { r with LY := H.STICK_CENTER }
  let r := { r with RX := H.STICK_CENTER }
  let r := { r with RY := H.STICK_CENTER }
  let r := { r with HAT := H.HAT_CENTER }
  let r := { r with Button := H.SWITCH_RELEASE }
  let r := { r with LX := s.lastLX }
  let r := if (s.firstButtons.val >>> 2) &&& 0x01 ≠ 0 then r else r
  let r := if (s.firstButtons.val >>> 3) &&& 0x01 ≠ 0 then
      { r with Button := r.Button ||| H.SWITCH_START } else r
  let r :=
    if (s.firstButtons.val >>> 4) &&& 0x0f = 1 then { r with HAT := H.HAT_TOP }
    else if (s.firstButtons.val >>> 4) &&& 0x0f = 2 then { r with HAT := H.HAT_RIGHT }
    else if (s.firstButtons.val >>> 4) &&& 0x0f = 4 then { r with HAT := H.HAT_BOTTOM }
    else if (s.firstButtons.val >>> 4) &&& 0x0f = 8 then { r with HAT := H.HAT_LEFT }
    else r
  let r :=
    if (s.secondButtons.val >>> 7) &&& 0x01 ≠ 0 ∧ (s.secondButtons.val >>> 6) &&& 0x01 ≠ 0 then
      let r := { r with Button := r.Button ||| H.SWITCH_L }
      { r with Button := r.Button ||| H.SWITCH_A }
    else
      let r := if (s.secondButtons.val >>> 6) &&& 0x01 ≠ 0 then
          { r with Button := r.Button ||| H.SWITCH_A } else r
      if (s.secondButtons.val >>> 7) &&& 0x01 ≠ 0 then
        { r with Button := r.Button ||| H.SWITCH_B } else r
  let r := if (s.secondButtons.val >>> 2) &&& 0x01 ≠ 0 then
      { r with Button := r.Button ||| H.SWITCH_L } else r
  let r := if (s.secondButtons.val >>> 3) &&& 0x01 ≠ 0 then
      { r with Button := r.Button ||| H.SWITCH_R } else r
  let r := if (s.secondButtons.val >>> 4) &&& 0x01 ≠ 0 then
      { r with Button := r.Button ||| H.SWITCH_X } else r
  let r := if (s.secondButtons.val >>> 5) &&& 0x01 ≠ 0 then
      { r with Button := r.Button ||| H.SWITCH_Y } else r
  r

/-- Constants for evaluating the definitions on concrete inputs: the stick
centre 128 of the report format, hat codes 0, 2, 4, 6 and 8, and one bit per
logical button. -/
def sampleHeader : Header :=
  { STICK_CENTER := 128
    HAT_TOP := 0, HAT_RIGHT := 2, HAT_BOTTOM := 4, HAT_LEFT := 6, HAT_CENTER := 8
    SWITCH_RELEASE := 0
    SWITCH_START := 0x200
    SWITCH_A := 0x04, SWITCH_B := 0x02, SWITCH_X := 0x08, SWITCH_Y := 0x01
    SWITCH_L := 0x10, SWITCH_R := 0x20 }

/-- A line buffer holding the given three leading bytes and zeros after them. -/
def lineOf (t p q : Byte) : Buffer :=
  fun i => if i = idx0 then t else if i = idx1 then p else if i = idx2 then q else 0

/-- A snapshot with non-default content in every field, for evaluation. -/
def busySnapshot : Snapshot :=
  { lastLX := 77, lastLY := 128, firstButtons := 0x28, secondButtons := 0x44 }

/-- The first 256 bytes of `overflowLine`: an axis packet `241 200` and 254
filler bytes. -/
def overflowHead : List Byte :=
  241 :: 200 :: List.replicate 254 1

/-- A line of 257 stored bytes: `overflowHead` and a final byte 77. -/
def overflowLine : List Byte :=
  overflowHead ++ [77]

/-- The button mask as the mapping table states it: `SWITCH_START` iff bit 3 of
the first group; from the second group `SWITCH_A` iff bit 6, `SWITCH_B` iff
bit 7 and not bit 6, `SWITCH_L` iff bit 2 or both of bits 6 and 7, `SWITCH_R`
iff bit 3, `SWITCH_X` iff bit 4, `SWITCH_Y` iff bit 5; all combined by OR. -/
def buttonSpec (H : Header) (f s : Byte) : Nat :=
  (if f.val.testBit 3 then H.SWITCH_START else 0) |||
  (if s.val.testBit 6 then H.SWITCH_A else 0) |||
  (if s.val.testBit 7 ∧ ¬ s.val.testBit 6 then H.SWITCH_B else 0) |||
  (if s.val.testBit 2 ∨ (s.val.testBit 6 ∧ s.val.testBit 7) then H.SWITCH_L else 0) |||
  (if s.val.testBit 3 then H.SWITCH_R else 0) |||
  (if s.val.testBit 4 then H.SWITCH_X else 0) |||
  (if s.val.testBit 5 then H.SWITCH_Y else 0)

/-- The hat as the mapping table states it, from the 4-bit code `h` in bits 4..7
of the first group: 1 up, 2 right, 4 down, 8 left, anything else centred. -/
def hatSpec (H : Header) (h : Nat) : Nat :=
  if h = 1 then H.HAT_TOP
  else if h = 2 then H.HAT_RIGHT
  else if h = 4 then H.HAT_BOTTOM
  else if h = 8 then H.HAT_LEFT
  else H.HAT_CENTER

/-- The host-side test `mask & c`: the button mask contains the button `c`. -/
def hasButton (mask c : Nat) : Bool :=
  mask &&& c != 0

/-- The seven logical button constants that `GetNextReport` can assert. -/
def Header.buttons (H : Header) : List Nat :=
  [H.SWITCH_START, H.SWITCH_A, H.SWITCH_B, H.SWITCH_X, H.SWITCH_Y, H.SWITCH_L, H.SWITCH_R]

/-- The logical button constants are distinct single bits. -/
def Header.DistinctSingleBits (H : Header) : Prop :=
  (∀ c ∈ H.buttons, ∃ k : Nat, c = 2 ^ k) ∧ H.buttons.Nodup

/-- The byte stream of the end-to-end example: the packets `241 200` and
`242 0b00001000 0b00000100`, each terminated by a newline. -/
def endToEndInput : List Byte :=
  [241, 200, 10, 242, 0b00001000, 0b00000100, 10]

/-- A second snapshot for evaluation: it agrees with `busySnapshot` on bits 4..7
of the first group only. -/
def otherSnapshot : Snapshot :=
  { lastLX := 1, lastLY := 2, firstButtons := 0x2f, secondButtons := 0xff }

/-- A snapshot whose second group has the combo bits 6 and 7 and bit 3 set. -/
def comboSnapshot : Snapshot :=
  { lastLX := 90, lastLY := 128, firstButtons := 0x18, secondButtons := 0xc8 }

/-- A snapshot that differs from `busySnapshot` in `lastLY`, in bits 0..2 of the
first group and in bits 0..1 of the second group only. -/
def lowBitsSnapshot : Snapshot :=
  { lastLX := 77, lastLY := 3, firstButtons := 0x2f, secondButtons := 0x47 }

/-- An accumulator in the middle of a line: two bytes stored, `l = 2`. -/
def midLine : Globals :=
  { snap := busySnapshot, b := lineOf 242 8 0, l := 2 }

/-- A report buffer with arbitrary previous content, for evaluation. -/
def staleReport : Report :=
  { Button := 0xffff, HAT := 7, LX := 1, LY := 2, RX := 3, RY := 4 }

/-- The object `*ReportData` as `GetNextReport` finds it: the six fields the
function names and `rest`, the remaining bytes of the struct by offset. The
struct is declared in `Joystick.h`, so what lies outside the named fields is left
open; `memset(ReportData, 0, sizeof(...))` clears those bytes too. -/
structure ReportMem where
  named : Report
  rest : Nat → Byte

/-- The memory `GetNextReport` can reach: the globals of the translation unit and
the report object its argument points to. -/
structure Machine where
  globals : Globals
  report : ReportMem

/-- `memset(ReportData, 0, sizeof(USB_JoystickReport_Input_t))`. -/
def Machine.memsetReport (m : Machine) : Machine :=
  { m with report :=
      { named := { Button := 0, HAT := 0, LX := 0, LY := 0, RX := 0, RY := 0 }
        rest := fun _ => 0 } }

/-- `ReportData->LX = v`. -/
def Machine.setLX (m : Machine) (v : Byte) : Machine :=
  { m with report := { m.report with named := { m.report.named with LX := v } } }

/-- `ReportData->LY = v`. -/
def Machine.setLY (m : Machine) (v : Byte) : Machine :=
  { m with report := { m.report with named := { m.report.named with LY := v } } }

/-- `ReportData->RX = v`. -/
def Machine.setRX (m : Machine) (v : Byte) : Machine :=
  { m with report := { m.report with named := { m.report.named with RX := v } } }

/-- `ReportData->RY = v`. -/
def Machine.setRY (m : Machine) (v : Byte) : Machine :=
  { m with report := { m.report with named := { m.report.named with RY := v } } }

/-- `ReportData->HAT = v`. -/
def Machine.setHAT (m : Machine) (v : Nat) : Machine :=
  { m with report := { m.report with named := { m.report.named with HAT := v } } }

/-- `ReportData->Button = v`. -/
def Machine.setButton (m : Machine) (v : Nat) : Machine :=
  { m with report := { m.report with named := { m.report.named with Button := v } } }

/-- `ReportData->Button |= c`. -/
def Machine.orButton (m : Machine) (c : Nat) : Machine :=
  m.setButton (m.report.named.Button ||| c)

/-- `GetNextReport` statement by statement on the memory it can reach. Every
statement is a step on the whole `Machine`, and every read of `lastLX`,
`firstButtons` or `secondButtons` is a read of the globals of the machine as the
preceding statements left it. -/
def GetNextReport_mem (H : Header) (m : Machine) : Machine :=
  let m := m.memsetReport
  let m := m.setLX H.STICK_CENTER
  let m := m.setLY H.STICK_CENTER
  let m := m.setRX H.STICK_CENTER
  let m := m.setRY H.STICK_CENTER
  let m := m.setHAT H.HAT_CENTER
  let m := m.setButton H.SWITCH_RELEASE
  let m := m.setLX m.globals.snap.lastLX
  let m := if (m.globals.snap.firstButtons.val >>> 2) &&& 0x01 ≠ 0 then m else m
  let m := if (m.globals.snap.firstButtons.val >>> 3) &&& 0x01 ≠ 0 then
      m.orButton H.SWITCH_START else m
  let m :=
    if (m.globals.snap.firstButtons.val >>> 4) &&& 0x0f = 1 then m.setHAT H.HAT_TOP
    else if (m.globals.snap.firstButtons.val >>> 4) &&& 0x0f = 2 then m.setHAT H.HAT_RIGHT
    else if (m.globals.snap.firstButtons.val >>> 4) &&& 0x0f = 4 then m.setHAT H.HAT_BOTTOM
    else if (m.globals.snap.firstButtons.val >>> 4) &&& 0x0f = 8 then m.setHAT H.HAT_LEFT
    else m
  let m :=
    if (m.globals.snap.secondButtons.val >>> 7) &&& 0x01 ≠ 0 ∧
        (m.globals.snap.secondButtons.val >>> 6) &&& 0x01 ≠ 0 then
      let m := m.orButton H.SWITCH_L
      m.orButton H.SWITCH_A
    else
      let m := if (m.globals.snap.secondButtons.val >>> 6) &&& 0x01 ≠ 0 then
          m.orButton H.SWITCH_A else m
      if (m.globals.snap.secondButtons.val >>> 7) &&& 0x01 ≠ 0 then
        m.orButton H.SWITCH_B else m
  let m := if (m.globals.snap.secondButtons.val >>> 2) &&& 0x01 ≠ 0 then
      m.orButton H.SWITCH_L else m
  let m := if (m.globals.snap.secondButtons.val >>> 3) &&& 0x01 ≠ 0 then
      m.orButton H.SWITCH_R else m
  let m := if (m.globals.snap.secondButtons.val >>> 4) &&& 0x01 ≠ 0 then
      m.orButton H.SWITCH_X else m
  let m := if (m.globals.snap.secondButtons.val >>> 5) &&& 0x01 ≠ 0 then
      m.orButton H.SWITCH_Y else m
  m

/-- A machine in the middle of a received line, its report object holding stale
content in every byte. -/
def staleMachine : Machine :=
  { globals := midLine
    report := { named := staleReport, rest := fun _ => 0xaa } }

/-- A machine with the snapshot of `staleMachine` but another accumulator and
another report object. -/
def freshMachine : Machine :=
  { globals := emptyAcc busySnapshot
    report :=
      { named := { Button := 1, HAT := 0, LX := 9, LY := 9, RX := 9, RY := 9 }
        rest := fun _ => 0x55 } }

end Joystick

/-! ## Decoder and accumulator: theorems -/

namespace Joystick

/-- The interrupt on a byte that is neither newline nor carriage return: the
guard `l < MAX_BUFFER` holds for every value of the 8-bit counter, so the byte
is stored at `b[l]` and `l` is incremented modulo 256. -/
theorem USART1_RX_vect_store (g : Globals) (c : Byte) (hn : c ≠ 10) (hr : c ≠ 13) :
    USART1_RX_vect g c =
      { snap := g.snap
        b := Function.update g.b ⟨g.l.val, lt_trans g.l.isLt (by decide)⟩ c
        l := ⟨(g.l.val + 1) % 256, Nat.mod_lt _ (by decide)⟩ } := by
  have h : c ≠ 13 ∧ g.l.val < MAX_BUFFER := ⟨hr, lt_trans g.l.isLt (by decide)⟩
  simp [USART1_RX_vect, hn, h]

/-- The interrupt on a newline: decode, then clear the accumulator. -/
theorem USART1_RX_vect_newline (g : Globals) :
    USART1_RX_vect g 10 =
      { snap := parseLine g.snap g.b g.l.val, b := fun _ => 0, l := 0 } := by
  simp [USART1_RX_vect]

theorem feed_nil (g : Globals) : feed g [] = g := rfl

theorem feed_cons (g : Globals) (c : Byte) (cs : List Byte) :
    feed g (c :: cs) = feed (USART1_RX_vect g c) cs := rfl

theorem feed_append (g : Globals) (xs ys : List Byte) :
    feed g (xs ++ ys) = feed (feed g xs) ys := by
  simp [feed, List.foldl_append]

/-- Feeding stored bytes leaves the snapshot alone and advances the counter
modulo 256. -/
theorem feed_stored_snap_l (xs : List Byte) :
    ∀ g : Globals, (∀ c ∈ xs, c ≠ 10 ∧ c ≠ 13) →
      (feed g xs).snap = g.snap ∧ (feed g xs).l.val = (g.l.val + xs.length) % 256 := by
  induction xs with
  | nil =>
    intro g _
    simp [feed_nil, Nat.mod_eq_of_lt g.l.isLt]
  | cons c cs ih =>
    intro g h
    have hc := h c (List.mem_cons_self c cs)
    have hcs : ∀ d ∈ cs, d ≠ 10 ∧ d ≠ 13 := fun d hd => h d (List.mem_cons_of_mem c hd)
    obtain ⟨h1, h2⟩ := ih (USART1_RX_vect g c) hcs
    rw [feed_cons, h1, h2, USART1_RX_vect_store g c hc.1 hc.2]
    refine ⟨rfl, ?_⟩
    simp only [List.length_cons]
    omega

/-- After 256 stored bytes on one line the 8-bit counter is back at 0, so the
next stored byte lands in `b[0]`. -/
theorem feed_wraps_at_256 (g : Globals) (xs : List Byte) (x : Byte)
    (hl : g.l.val = 0) (hlen : xs.length = 256)
    (hxs : ∀ c ∈ xs, c ≠ 10 ∧ c ≠ 13) (hn : x ≠ 10) (hr : x ≠ 13) :
    (feed g (xs ++ [x])).b idx0 = x ∧ (feed g (xs ++ [x])).snap = g.snap := by
  obtain ⟨h1, h2⟩ := feed_stored_snap_l xs g hxs
  rw [hl, hlen] at h2
  have h0 : (⟨(feed g xs).l.val, lt_trans (feed g xs).l.isLt (by decide)⟩ : Fin MAX_BUFFER)
      = idx0 := Fin.ext h2
  rw [feed_append, feed_cons, feed_nil, USART1_RX_vect_store _ x hn hr]
  refine ⟨?_, h1⟩
  rw [← h0]
  exact Function.update_same _ _ _

/-- While at most 256 bytes are stored on one line, the buffer below the
starting counter is untouched and the stored bytes follow it in arrival order. -/
theorem feed_stored_buffer (xs : List Byte) :
    ∀ g : Globals, (∀ c ∈ xs, c ≠ 10 ∧ c ≠ 13) → g.l.val + xs.length ≤ 256 →
      ∀ i : Fin MAX_BUFFER, (feed g xs).b i =
        if i.val < g.l.val then g.b i else (xs[i.val - g.l.val]?).getD (g.b i) := by
  induction xs with
  | nil =>
    intro g _ _ i
    simp [feed_nil]
  | cons c cs ih =>
    intro g h hlen i
    have hc := h c (List.mem_cons_self c cs)
    have hcs : ∀ d ∈ cs, d ≠ 10 ∧ d ≠ 13 := fun d hd => h d (List.mem_cons_of_mem c hd)
    have hstep := USART1_RX_vect_store g c hc.1 hc.2
    have hupd : ∀ j : Fin MAX_BUFFER, (USART1_RX_vect g c).b j =
        if j.val = g.l.val then c else g.b j := by
      intro j
      rw [hstep]
      by_cases hj : j.val = g.l.val
      · have hj' : j = ⟨g.l.val, lt_trans g.l.isLt (by decide)⟩ := Fin.ext hj
        rw [if_pos hj, hj']
        exact Function.update_same _ _ _
      · have hj' : j ≠ ⟨g.l.val, lt_trans g.l.isLt (by decide)⟩ := fun e => hj (by rw [e])
        simp [hj, Function.update_noteq hj']
    rw [feed_cons]
    cases cs with
    | nil =>
      rw [feed_nil, hupd]
      by_cases hi : i.val = g.l.val
      · simp [hi]
      · by_cases hlt : i.val < g.l.val
        · simp [hi, hlt]
        · obtain ⟨m, hm⟩ : ∃ m, i.val - g.l.val = m + 1 := ⟨i.val - g.l.val - 1, by omega⟩
          simp [hi, hlt, hm]
    | cons d ds =>
      simp only [List.length_cons] at hlen
      have hl : (USART1_RX_vect g c).l.val = g.l.val + 1 := by
        rw [hstep]
        exact Nat.mod_eq_of_lt (by omega)
      have key := ih (USART1_RX_vect g c) hcs (by rw [hl]; simp only [List.length_cons]; omega) i
      rw [key, hl, hupd]
      by_cases hi : i.val = g.l.val
      · simp [hi]
      · by_cases hlt : i.val < g.l.val
        · have : i.val < g.l.val + 1 := by omega
          simp [hi, hlt, this]
        · have h1 : ¬ i.val < g.l.val + 1 := by omega
          have h2 : i.val - g.l.val = (i.val - (g.l.val + 1)) + 1 := by omega
          rw [if_neg h1, if_neg hlt, if_neg hi, h2, List.getElem?_cons_succ]

/-- A line of at most 256 stored bytes reaches `parseLine` intact: position k of
the buffer holds the k-th byte fed. -/
theorem feed_keeps_first_256 (s : Snapshot) (xs : List Byte)
    (hxs : ∀ c ∈ xs, c ≠ 10 ∧ c ≠ 13) (hlen : xs.length ≤ 256)
    (k : Nat) (hk : k < xs.length) :
    (feed (emptyAcc s) xs).b ⟨k, lt_of_lt_of_le hk (le_trans hlen (by decide))⟩ =
      xs.get ⟨k, hk⟩ := by
  rw [feed_stored_buffer xs (emptyAcc s) hxs (by simpa [emptyAcc] using hlen)]
  simp [emptyAcc, hk]

/-- C1, as stated, fails: from the start-up state (analog field 128) the
under-length line `241 '\n'` changes the analog field. -/
theorem short_axis_line_changes_lastLX :
    (feed (init sampleHeader) [241, 10]).snap.lastLX ≠ (init sampleHeader).snap.lastLX := by
  decide

/-- C1 amended: an under-length line is decoded with its missing payload bytes
read as 0 from the zeroed buffer. The line `241` sets the analog field to 0;
the line `242` sets both button groups to 0; the line `242 g` (g neither
newline nor carriage return) sets the first group to g (0 when g = 3) and the
second group to 0. Fields outside the tag's scope are unchanged. -/
theorem short_line_reads_missing_bytes_as_zero (s : Snapshot) (g : Byte)
    (hn : g ≠ 10) (hr : g ≠ 13) :
    (feed (emptyAcc s) [241, 10]).snap = { s with lastLX := 0 } ∧
    (feed (emptyAcc s) [242, 10]).snap = { s with firstButtons := 0, secondButtons := 0 } ∧
    (feed (emptyAcc s) [242, g, 10]).snap =
      { s with firstButtons := if g = 3 then 0 else g, secondButtons := 0 } := by
  refine ⟨?_, ?_, ?_⟩
  · simp [feed, emptyAcc, USART1_RX_vect, parseLine, idx0, idx1, idx2, MAX_BUFFER, Function.update]
  · simp [feed, emptyAcc, USART1_RX_vect, parseLine, idx0, idx1, idx2, MAX_BUFFER, Function.update]
  · by_cases h3 : g = 3 <;>
      simp [feed, emptyAcc, USART1_RX_vect, parseLine, idx0, idx1, idx2, MAX_BUFFER,
        Function.update, hn, hr, h3]

/-- Witness for C1 amended: the line `242 8` on a snapshot with non-default
fields. -/
theorem short_line_reads_missing_bytes_as_zero_witness :
    (8 : Byte) ≠ 10 ∧ (8 : Byte) ≠ 13 ∧
    (feed (emptyAcc busySnapshot) [241, 10]).snap = { busySnapshot with lastLX := 0 } ∧
    (feed (emptyAcc busySnapshot) [242, 10]).snap =
      { busySnapshot with firstButtons := 0, secondButtons := 0 } ∧
    (feed (emptyAcc busySnapshot) [242, 8, 10]).snap =
      { busySnapshot with firstButtons := if (8 : Byte) = 3 then 0 else 8, secondButtons := 0 } :=
  ⟨by decide, by decide,
    short_line_reads_missing_bytes_as_zero busySnapshot 8 (by decide) (by decide)⟩

/-- C2: on a line with tag 242 each button group is written from its own payload
byte, verbatim unless that byte is the sentinel 3, which writes 0; neither
group's result depends on the other group's byte. -/
theorem parseLine_digital_decode (s : Snapshot) (line : Buffer) (count : Nat)
    (htag : line idx0 = 242) :
    (parseLine s line count).firstButtons = (if line idx1 = 3 then 0 else line idx1) ∧
    (parseLine s line count).secondButtons = (if line idx2 = 3 then 0 else line idx2) := by
  by_cases h1 : line idx1 = 3 <;> by_cases h2 : line idx2 = 3 <;>
    simp [parseLine, htag, h1, h2]

/-- Witness for C2: sentinel in the first group, a raw mask in the second. -/
theorem parseLine_digital_decode_witness :
    lineOf 242 3 0x44 idx0 = 242 ∧
    (parseLine busySnapshot (lineOf 242 3 0x44) 3).firstButtons =
      (if lineOf 242 3 0x44 idx1 = 3 then 0 else lineOf 242 3 0x44 idx1) ∧
    (parseLine busySnapshot (lineOf 242 3 0x44) 3).secondButtons =
      (if lineOf 242 3 0x44 idx2 = 3 then 0 else lineOf 242 3 0x44 idx2) :=
  ⟨by decide, parseLine_digital_decode busySnapshot (lineOf 242 3 0x44) 3 (by decide)⟩

/-- C3: on a line with tag 241 the analog field becomes the second byte of the
line, whatever byte value it is. -/
theorem parseLine_axis_decode (s : Snapshot) (line : Buffer) (count : Nat)
    (htag : line idx0 = 241) :
    (parseLine s line count).lastLX = line idx1 := by
  simp [parseLine, htag]

/-- Witness for C3: the axis value 255. -/
theorem parseLine_axis_decode_witness :
    lineOf 241 255 0 idx0 = 241 ∧
    (parseLine busySnapshot (lineOf 241 255 0) 2).lastLX = lineOf 241 255 0 idx1 :=
  ⟨by decide, parseLine_axis_decode busySnapshot (lineOf 241 255 0) 2 (by decide)⟩

/-- C4, as stated, fails: the axis value 10 is the line terminator and 13 is
skipped, so the bytes `241 10 '\n'` and `241 13 '\n'` leave the analog field at
0, not at 10 or 13. -/
theorem axis_value_newline_not_transmitted :
    (feed (emptyAcc busySnapshot) [241, 10, 10]).snap.lastLX ≠ 10 ∧
    (feed (emptyAcc busySnapshot) [241, 13, 10]).snap.lastLX ≠ 13 := by
  decide

/-- C4 amended: every axis value other than 10 (newline) and 13 (carriage
return) is transmittable: the bytes `241 v '\n'` fed to an empty accumulator
set the analog field to v and leave the other snapshot fields unchanged. -/
theorem axis_value_transmitted (s : Snapshot) (v : Byte) (hn : v ≠ 10) (hr : v ≠ 13) :
    (feed (emptyAcc s) [241, v, 10]).snap.lastLX = v ∧
    (feed (emptyAcc s) [241, v, 10]).snap.firstButtons = s.firstButtons ∧
    (feed (emptyAcc s) [241, v, 10]).snap.secondButtons = s.secondButtons := by
  simp [feed, emptyAcc, USART1_RX_vect, parseLine, idx0, idx1, idx2, MAX_BUFFER,
    Function.update, hn, hr]

/-- Witness for C4 amended: the axis value 200. -/
theorem axis_value_transmitted_witness :
    (200 : Byte) ≠ 10 ∧ (200 : Byte) ≠ 13 ∧
    (feed (emptyAcc busySnapshot) [241, 200, 10]).snap.lastLX = 200 ∧
    (feed (emptyAcc busySnapshot) [241, 200, 10]).snap.firstButtons =
      busySnapshot.firstButtons ∧
    (feed (emptyAcc busySnapshot) [241, 200, 10]).snap.secondButtons =
      busySnapshot.secondButtons :=
  ⟨by decide, by decide, axis_value_transmitted busySnapshot 200 (by decide) (by decide)⟩

/-- C5 at a failing input: after the 257 stored bytes of `overflowLine` the
buffer handed to `parseLine` holds the last byte 77 at position 0, not the
first byte 241, and decoding the line leaves the analog field at its old value
77 instead of setting it to the payload 200. -/
theorem overflowLine_overwrites_tag :
    overflowLine.length = 257 ∧
    (∀ c ∈ overflowLine, c ≠ 10 ∧ c ≠ 13) ∧
    (feed (emptyAcc busySnapshot) overflowLine).b idx0 = 77 ∧
    (feed (emptyAcc busySnapshot) (overflowLine ++ [10])).snap.lastLX = 77 := by
  have hlen : overflowHead.length = 256 := by
    simp only [overflowHead, List.length_cons, List.length_replicate]
  have hxs : ∀ c ∈ overflowHead, c ≠ 10 ∧ c ≠ 13 := by
    intro c hc
    simp only [overflowHead, List.mem_cons, List.mem_replicate] at hc
    rcases hc with rfl | rfl | ⟨_, rfl⟩ <;> decide
  have hw := feed_wraps_at_256 (emptyAcc busySnapshot) overflowHead 77 rfl hlen hxs
    (by decide) (by decide)
  have hdef : overflowLine = overflowHead ++ [77] := rfl
  rw [hdef]
  refine ⟨?_, ?_, hw.1, ?_⟩
  · simp only [List.length_append, hlen, List.length_cons, List.length_nil]
  · intro c hc
    simp only [List.mem_append, List.mem_singleton] at hc
    rcases hc with hc | rfl
    · exact hxs c hc
    · decide
  · rw [feed_append, feed_cons, feed_nil, USART1_RX_vect_newline]
    simp only [parseLine, hw.1, hw.2]
    decide

end Joystick

/-! ## Report synthesis: theorems -/

namespace Joystick

/-- The C test `(x >> k) & 0x01` is non-zero exactly when bit `k` of `x` is set. -/
theorem shift_and_one_ne_zero (n k : Nat) : ((n >>> k) &&& 1 ≠ 0) ↔ n.testBit k = true := by
  simp [Nat.testBit, Nat.and_comm]

/-- The button mask computed by `GetNextReport`: the initial `SWITCH_RELEASE`
combined with the terms of the mapping table. -/
theorem GetNextReport_Button (H : Header) (s : Snapshot) (r : Report) :
    (GetNextReport H s r).Button =
      H.SWITCH_RELEASE ||| buttonSpec H s.firstButtons s.secondButtons := by
  simp only [GetNextReport, buttonSpec, shift_and_one_ne_zero]
  by_cases f3 : s.firstButtons.val.testBit 3 = true <;>
  by_cases s2 : s.secondButtons.val.testBit 2 = true <;>
  by_cases s3 : s.secondButtons.val.testBit 3 = true <;>
  by_cases s4 : s.secondButtons.val.testBit 4 = true <;>
  by_cases s5 : s.secondButtons.val.testBit 5 = true <;>
  by_cases s6 : s.secondButtons.val.testBit 6 = true <;>
  by_cases s7 : s.secondButtons.val.testBit 7 = true <;>
  simp [f3, s2, s3, s4, s5, s6, s7, apply_ite Report.Button] <;> ac_rfl

/-- The hat computed by `GetNextReport` is the table entry of the 4-bit code. -/
theorem GetNextReport_HAT (H : Header) (s : Snapshot) (r : Report) :
    (GetNextReport H s r).HAT = hatSpec H ((s.firstButtons.val >>> 4) &&& 0x0f) := by
  simp only [GetNextReport, hatSpec, apply_ite Report.HAT, ite_self]

/-- The stick fields computed by `GetNextReport`. -/
theorem GetNextReport_sticks (H : Header) (s : Snapshot) (r : Report) :
    (GetNextReport H s r).LX = s.lastLX ∧ (GetNextReport H s r).LY = H.STICK_CENTER ∧
    (GetNextReport H s r).RX = H.STICK_CENTER ∧ (GetNextReport H s r).RY = H.STICK_CENTER := by
  simp only [GetNextReport, apply_ite Report.LX, apply_ite Report.LY, apply_ite Report.RX,
    apply_ite Report.RY, ite_self, and_self]

/-- Testing a mask against a single bit reads that bit of the mask. -/
theorem hasButton_two_pow (m k : Nat) : hasButton m (2 ^ k) = m.testBit k := by
  have h : (m &&& 2 ^ k = 0) ↔ m.testBit k = false := by
    constructor
    · intro h0
      have h1 := Nat.testBit_and m (2 ^ k) k
      rw [h0, Nat.testBit_two_pow_self] at h1
      simpa using h1.symm
    · intro hk
      apply Nat.eq_of_testBit_eq
      intro i
      rw [Nat.testBit_and, Nat.testBit_two_pow]
      by_cases hi : k = i
      · subst hi
        simp [hk]
      · simp [hi]
  unfold hasButton
  cases hb : m.testBit k
  · simp [h.mpr hb]
  · have : m &&& 2 ^ k ≠ 0 := fun h0 => by simp [h.mp h0] at hb
    simp [this]

/-- A conditional single-bit term has bit `i` set iff the condition holds and the
term's bit is `i`. -/
theorem testBit_ite_two_pow (c : Prop) [Decidable c] (k i : Nat) :
    (if c then 2 ^ k else 0).testBit i = (decide c && decide (k = i)) := by
  by_cases hc : c <;> simp [hc, Nat.testBit_two_pow]

/-- With distinct single-bit button constants, each logical button is in the
table's mask exactly under its own condition. -/
theorem hasButton_buttonSpec (H : Header) (hb : H.DistinctSingleBits) (f s : Byte) :
    hasButton (buttonSpec H f s) H.SWITCH_START = f.val.testBit 3 ∧
    hasButton (buttonSpec H f s) H.SWITCH_A = s.val.testBit 6 ∧
    hasButton (buttonSpec H f s) H.SWITCH_B = (s.val.testBit 7 && !s.val.testBit 6) ∧
    hasButton (buttonSpec H f s) H.SWITCH_L =
      (s.val.testBit 2 || (s.val.testBit 6 && s.val.testBit 7)) ∧
    hasButton (buttonSpec H f s) H.SWITCH_R = s.val.testBit 3 ∧
    hasButton (buttonSpec H f s) H.SWITCH_X = s.val.testBit 4 ∧
    hasButton (buttonSpec H f s) H.SWITCH_Y = s.val.testBit 5 := by
  obtain ⟨hbits, hnd⟩ := hb
  obtain ⟨kst, hst⟩ := hbits H.SWITCH_START (by simp [Header.buttons])
  obtain ⟨ka, ha⟩ := hbits H.SWITCH_A (by simp [Header.buttons])
  obtain ⟨kb, hb⟩ := hbits H.SWITCH_B (by simp [Header.buttons])
  obtain ⟨kx, hx⟩ := hbits H.SWITCH_X (by simp [Header.buttons])
  obtain ⟨ky, hy⟩ := hbits H.SWITCH_Y (by simp [Header.buttons])
  obtain ⟨kl, hl⟩ := hbits H.SWITCH_L (by simp [Header.buttons])
  obtain ⟨kr, hr⟩ := hbits H.SWITCH_R (by simp [Header.buttons])
  simp only [Header.buttons, hst, ha, hb, hx, hy, hl, hr, List.nodup_cons, List.mem_cons,
    List.mem_singleton, List.not_mem_nil, or_false, not_or, List.nodup_nil, and_true,
    not_false_eq_true] at hnd
  have ne : ∀ {i j : Nat}, (2 : Nat) ^ i ≠ 2 ^ j → i ≠ j := fun h e => h (by rw [e])
  obtain ⟨⟨n1, n2, n3, n4, n5, n6⟩, ⟨n7, n8, n9, n10, n11⟩, ⟨n12, n13, n14, n15⟩,
    ⟨n16, n17, n18⟩, ⟨n19, n20⟩, n21⟩ := hnd
  have e1 := ne n1; have e2 := ne n2; have e3 := ne n3; have e4 := ne n4
  have e5 := ne n5; have e6 := ne n6; have e7 := ne n7; have e8 := ne n8
  have e9 := ne n9; have e10 := ne n10; have e11 := ne n11; have e12 := ne n12
  have e13 := ne n13; have e14 := ne n14; have e15 := ne n15; have e16 := ne n16
  have e17 := ne n17; have e18 := ne n18; have e19 := ne n19; have e20 := ne n20
  have e21 := ne n21
  simp only [buttonSpec, hst, ha, hb, hx, hy, hl, hr, hasButton_two_pow, Nat.testBit_or,
    testBit_ite_two_pow]
  simp [e1, e2, e3, e4, e5, e6, e7, e8, e9, e10, e11, e12, e13, e14, e15, e16, e17, e18,
    e19, e20, e21, Ne.symm e1, Ne.symm e2, Ne.symm e3, Ne.symm e4, Ne.symm e5, Ne.symm e6,
    Ne.symm e7, Ne.symm e8, Ne.symm e9, Ne.symm e10, Ne.symm e11, Ne.symm e12, Ne.symm e13,
    Ne.symm e14, Ne.symm e15, Ne.symm e16, Ne.symm e17, Ne.symm e18, Ne.symm e19,
    Ne.symm e20, Ne.symm e21]

/-- A conditional term contributes a bit only if the constant has that bit. -/
theorem testBit_ite_zero (c : Prop) [Decidable c] (k i : Nat)
    (h : (if c then k else 0).testBit i = true) : k.testBit i = true := by
  by_cases hc : c
  · simpa [hc] using h
  · simp [hc] at h

/-- The table's mask is 0 when both groups are 0. -/
theorem buttonSpec_zero (H : Header) : buttonSpec H 0 0 = 0 := by
  simp [buttonSpec]

/-- The sample constants are distinct single bits. -/
theorem sampleHeader_distinctSingleBits : sampleHeader.DistinctSingleBits := by
  refine ⟨?_, by decide⟩
  intro c hc
  simp only [Header.buttons, sampleHeader, List.mem_cons, List.mem_singleton,
    List.not_mem_nil, or_false] at hc
  rcases hc with rfl | rfl | rfl | rfl | rfl | rfl | rfl
  · exact ⟨9, rfl⟩
  · exact ⟨2, rfl⟩
  · exact ⟨1, rfl⟩
  · exact ⟨3, rfl⟩
  · exact ⟨0, rfl⟩
  · exact ⟨4, rfl⟩
  · exact ⟨5, rfl⟩

/-- The snapshot after the end-to-end byte stream. -/
theorem feed_endToEndInput (s : Snapshot) :
    (feed (emptyAcc s) endToEndInput).snap =
      { s with lastLX := 200, firstButtons := 8, secondButtons := 4 } := by
  simp [feed, endToEndInput, emptyAcc, USART1_RX_vect, parseLine, idx0, idx1, idx2,
    MAX_BUFFER, Function.update]

/-- C6, as stated, fails: with the sample constants the end-to-end example
yields a report in which shoulder R is not set and shoulder L is set. -/
theorem endToEnd_sets_L_not_R :
    hasButton (GetNextReport sampleHeader (feed (init sampleHeader) endToEndInput).snap
      staleReport).Button sampleHeader.SWITCH_R = false ∧
    hasButton (GetNextReport sampleHeader (feed (init sampleHeader) endToEndInput).snap
      staleReport).Button sampleHeader.SWITCH_L = true := by
  decide

/-- C6 amended: from the start-up state, after the packets `241 200` and
`242 0b00001000 0b00000100`, the report has LX = 200, hat centred, the mask
`SWITCH_RELEASE | SWITCH_START | SWITCH_L`; with `SWITCH_RELEASE = 0` and
distinct single-bit constants, start and shoulder L are set and none of A, B,
X, Y, R is. -/
theorem endToEnd_report (H : Header) (r : Report)
    (hrel : H.SWITCH_RELEASE = 0) (hb : H.DistinctSingleBits) :
    (GetNextReport H (feed (init H) endToEndInput).snap r).LX = 200 ∧
    (GetNextReport H (feed (init H) endToEndInput).snap r).HAT = H.HAT_CENTER ∧
    (GetNextReport H (feed (init H) endToEndInput).snap r).Button =
      H.SWITCH_RELEASE ||| H.SWITCH_START ||| H.SWITCH_L ∧
    hasButton (GetNextReport H (feed (init H) endToEndInput).snap r).Button H.SWITCH_START
      = true ∧
    hasButton (GetNextReport H (feed (init H) endToEndInput).snap r).Button H.SWITCH_L
      = true ∧
    hasButton (GetNextReport H (feed (init H) endToEndInput).snap r).Button H.SWITCH_A
      = false ∧
    hasButton (GetNextReport H (feed (init H) endToEndInput).snap r).Button H.SWITCH_B
      = false ∧
    hasButton (GetNextReport H (feed (init H) endToEndInput).snap r).Button H.SWITCH_X
      = false ∧
    hasButton (GetNextReport H (feed (init H) endToEndInput).snap r).Button H.SWITCH_Y
      = false ∧
    hasButton (GetNextReport H (feed (init H) endToEndInput).snap r).Button H.SWITCH_R
      = false := by
  have hs : (feed (init H) endToEndInput).snap =
      { lastLX := 200, lastLY := H.STICK_CENTER, firstButtons := 8, secondButtons := 4 } := by
    rw [init, feed_endToEndInput]
  obtain ⟨b1, b2, b3, b4, b5, b6, b7⟩ := hasButton_buttonSpec H hb 8 4
  have hB := GetNextReport_Button H (feed (init H) endToEndInput).snap r
  have hH := GetNextReport_HAT H (feed (init H) endToEndInput).snap r
  have hX := (GetNextReport_sticks H (feed (init H) endToEndInput).snap r).1
  rw [hs] at hB hH hX
  have t3 : (8 : Byte).val.testBit 3 = true := by decide
  have u2 : (4 : Byte).val.testBit 2 = true := by decide
  have u3 : (4 : Byte).val.testBit 3 = false := by decide
  have u4 : (4 : Byte).val.testBit 4 = false := by decide
  have u5 : (4 : Byte).val.testBit 5 = false := by decide
  have u6 : (4 : Byte).val.testBit 6 = false := by decide
  have u7 : (4 : Byte).val.testBit 7 = false := by decide
  have hnib : ((8 : Byte).val >>> 4) &&& 0x0f = 0 := by decide
  have hspec : buttonSpec H 8 4 = H.SWITCH_START ||| H.SWITCH_L := by
    simp [buttonSpec, t3, u2, u3, u4, u5, u6, u7]
  rw [hs]
  simp only [hrel, Nat.zero_or] at hB ⊢
  refine ⟨hX, ?_, ?_, ?_, ?_, ?_, ?_, ?_, ?_, ?_⟩
  · rw [hH, hnib]
    simp [hatSpec]
  · rw [hB, hspec]
  · rw [hB, b1, t3]
  · rw [hB, b4, u2]; rfl
  · rw [hB, b2, u6]
  · rw [hB, b3, u7]; rfl
  · rw [hB, b6, u4]
  · rw [hB, b7, u5]
  · rw [hB, b5, u3]

/-- Witness for C6 amended: the sample constants and a stale report buffer. -/
theorem endToEnd_report_witness :
    sampleHeader.SWITCH_RELEASE = 0 ∧ sampleHeader.DistinctSingleBits ∧
    (GetNextReport sampleHeader (feed (init sampleHeader) endToEndInput).snap staleReport).LX
      = 200 ∧
    (GetNextReport sampleHeader (feed (init sampleHeader) endToEndInput).snap staleReport).Button
      = 0x210 :=
  ⟨rfl, sampleHeader_distinctSingleBits,
    (endToEnd_report sampleHeader staleReport rfl sampleHeader_distinctSingleBits).1,
    (endToEnd_report sampleHeader staleReport rfl sampleHeader_distinctSingleBits).2.2.1⟩

/-- C7: with h the 4-bit code `(firstButtons >> 4) & 0x0f`, the hat is the table
entry of h: up, right, down, left for h = 1, 2, 4, 8 and centred for each of the
other twelve codes; h is below 16, and two snapshots (and report buffers) that
agree on bits 4..7 of the first group get the same hat, whatever their other
fields and the low four bits of the first group are. -/
theorem hat_one_hot (H : Header) (s s' : Snapshot) (r r' : Report)
    (hnib : s'.firstButtons.val >>> 4 = s.firstButtons.val >>> 4) :
    (GetNextReport H s r).HAT = hatSpec H ((s.firstButtons.val >>> 4) &&& 0x0f) ∧
    (s.firstButtons.val >>> 4) &&& 0x0f < 16 ∧
    [1, 2, 4, 8].map (hatSpec H) = [H.HAT_TOP, H.HAT_RIGHT, H.HAT_BOTTOM, H.HAT_LEFT] ∧
    [0, 3, 5, 6, 7, 9, 10, 11, 12, 13, 14, 15].map (hatSpec H) =
      List.replicate 12 H.HAT_CENTER ∧
    (GetNextReport H s' r').HAT = (GetNextReport H s r).HAT := by
  refine ⟨GetNextReport_HAT H s r, ?_, ?_, ?_, ?_⟩
  · exact Nat.lt_succ_of_le Nat.and_le_right
  · simp [hatSpec]
  · simp [hatSpec, List.replicate]
  · rw [GetNextReport_HAT, GetNextReport_HAT, hnib]

/-- Witness for C7: two snapshots that share only the hat code 2 (right). -/
theorem hat_one_hot_witness :
    otherSnapshot.firstButtons.val >>> 4 = busySnapshot.firstButtons.val >>> 4 ∧
    (GetNextReport sampleHeader busySnapshot staleReport).HAT = sampleHeader.HAT_RIGHT ∧
    (GetNextReport sampleHeader otherSnapshot staleReport).HAT =
      (GetNextReport sampleHeader busySnapshot staleReport).HAT :=
  ⟨by decide,
    (hat_one_hot sampleHeader busySnapshot otherSnapshot staleReport staleReport
      (by decide)).1,
    (hat_one_hot sampleHeader busySnapshot otherSnapshot staleReport staleReport
      (by decide)).2.2.2.2⟩

/-- C8: when bits 6 and 7 of the second group are both set, the button mask
contains `SWITCH_A` and `SWITCH_L` and does not contain `SWITCH_B` (button
constants distinct single bits, `SWITCH_RELEASE = 0`); for the second group
`0b11000000` and first group 0 the mask is exactly `SWITCH_A | SWITCH_L`. -/
theorem combo_override (H : Header) (s : Snapshot) (r : Report) (lx ly : Byte)
    (hrel : H.SWITCH_RELEASE = 0) (hb : H.DistinctSingleBits)
    (h6 : s.secondButtons.val.testBit 6 = true) (h7 : s.secondButtons.val.testBit 7 = true) :
    hasButton (GetNextReport H s r).Button H.SWITCH_A = true ∧
    hasButton (GetNextReport H s r).Button H.SWITCH_L = true ∧
    hasButton (GetNextReport H s r).Button H.SWITCH_B = false ∧
    (GetNextReport H
      { lastLX := lx, lastLY := ly, firstButtons := 0, secondButtons := 0b11000000 } r).Button
      = H.SWITCH_A ||| H.SWITCH_L := by
  obtain ⟨_, b2, b3, b4, _, _, _⟩ := hasButton_buttonSpec H hb s.firstButtons s.secondButtons
  have hB := GetNextReport_Button H s r
  rw [hrel, Nat.zero_or] at hB
  refine ⟨?_, ?_, ?_, ?_⟩
  · rw [hB, b2, h6]
  · rw [hB, b4, h6, h7]
    simp
  · rw [hB, b3, h6, h7]
    rfl
  · rw [GetNextReport_Button, hrel, Nat.zero_or]
    have u2 : (0b11000000 : Byte).val.testBit 2 = false := by decide
    have u3 : (0b11000000 : Byte).val.testBit 3 = false := by decide
    have u4 : (0b11000000 : Byte).val.testBit 4 = false := by decide
    have u5 : (0b11000000 : Byte).val.testBit 5 = false := by decide
    have u6 : (0b11000000 : Byte).val.testBit 6 = true := by decide
    have u7 : (0b11000000 : Byte).val.testBit 7 = true := by decide
    simp [buttonSpec, u2, u3, u4, u5, u6, u7]

/-- Witness for C8: a snapshot with the combo bits and bit 3 of the second
group, start and a hat direction in the first group. -/
theorem combo_override_witness :
    sampleHeader.SWITCH_RELEASE = 0 ∧ sampleHeader.DistinctSingleBits ∧
    comboSnapshot.secondButtons.val.testBit 6 = true ∧
    comboSnapshot.secondButtons.val.testBit 7 = true ∧
    hasButton (GetNextReport sampleHeader comboSnapshot staleReport).Button
      sampleHeader.SWITCH_A = true ∧
    hasButton (GetNextReport sampleHeader comboSnapshot staleReport).Button
      sampleHeader.SWITCH_L = true ∧
    hasButton (GetNextReport sampleHeader comboSnapshot staleReport).Button
      sampleHeader.SWITCH_B = false ∧
    (GetNextReport sampleHeader
      { lastLX := 5, lastLY := 6, firstButtons := 0, secondButtons := 0b11000000 }
      staleReport).Button = sampleHeader.SWITCH_A ||| sampleHeader.SWITCH_L :=
  ⟨rfl, sampleHeader_distinctSingleBits, by decide, by decide,
    combo_override sampleHeader comboSnapshot staleReport 5 6 rfl
      sampleHeader_distinctSingleBits (by decide) (by decide)⟩

/-- C9: with `SWITCH_RELEASE = 0`, for every pair of button groups the button
mask of the report is the OR of exactly the terms of the mapping table
`buttonSpec`, and every bit set in the mask is a bit of one of the seven button
constants. -/
theorem button_mask_reference (H : Header) (s : Snapshot) (r : Report)
    (hrel : H.SWITCH_RELEASE = 0) :
    (GetNextReport H s r).Button = buttonSpec H s.firstButtons s.secondButtons ∧
    ∀ i : Nat, (GetNextReport H s r).Button.testBit i = true →
      ∃ c ∈ H.buttons, c.testBit i = true := by
  have hB := GetNextReport_Button H s r
  rw [hrel, Nat.zero_or] at hB
  refine ⟨hB, ?_⟩
  intro i hi
  rw [hB] at hi
  simp only [buttonSpec, Nat.testBit_or, Bool.or_eq_true] at hi
  rcases hi with (((((h | h) | h) | h) | h) | h) | h
  · exact ⟨H.SWITCH_START, by simp [Header.buttons], testBit_ite_zero _ _ _ h⟩
  · exact ⟨H.SWITCH_A, by simp [Header.buttons], testBit_ite_zero _ _ _ h⟩
  · exact ⟨H.SWITCH_B, by simp [Header.buttons], testBit_ite_zero _ _ _ h⟩
  · exact ⟨H.SWITCH_L, by simp [Header.buttons], testBit_ite_zero _ _ _ h⟩
  · exact ⟨H.SWITCH_R, by simp [Header.buttons], testBit_ite_zero _ _ _ h⟩
  · exact ⟨H.SWITCH_X, by simp [Header.buttons], testBit_ite_zero _ _ _ h⟩
  · exact ⟨H.SWITCH_Y, by simp [Header.buttons], testBit_ite_zero _ _ _ h⟩

/-- Witness for C9: the combo snapshot, whose mask is start, A, L and R. -/
theorem button_mask_reference_witness :
    sampleHeader.SWITCH_RELEASE = 0 ∧
    (GetNextReport sampleHeader comboSnapshot staleReport).Button =
      buttonSpec sampleHeader comboSnapshot.firstButtons comboSnapshot.secondButtons ∧
    buttonSpec sampleHeader comboSnapshot.firstButtons comboSnapshot.secondButtons = 0x234 :=
  ⟨rfl, (button_mask_reference sampleHeader comboSnapshot staleReport rfl).1, by decide⟩

/-- C10: for every prior snapshot, decoding a line that starts `242 3 3` sets
both button groups to 0, and the report synthesised afterwards has the mask
`SWITCH_RELEASE` and the hat centred; the same holds when the line arrives
through the receive interrupt into an empty accumulator. -/
theorem sentinel_reset (H : Header) (s : Snapshot) (line : Buffer) (count : Nat) (r : Report)
    (h0 : line idx0 = 242) (h1 : line idx1 = 3) (h2 : line idx2 = 3) :
    (parseLine s line count).firstButtons = 0 ∧
    (parseLine s line count).secondButtons = 0 ∧
    (GetNextReport H (parseLine s line count) r).Button = H.SWITCH_RELEASE ∧
    (GetNextReport H (parseLine s line count) r).HAT = H.HAT_CENTER ∧
    (feed (emptyAcc s) [242, 3, 3, 10]).snap = parseLine s line count := by
  have hp : parseLine s line count = { s with firstButtons := 0, secondButtons := 0 } := by
    simp [parseLine, h0, h1, h2]
  have hf : (feed (emptyAcc s) [242, 3, 3, 10]).snap =
      { s with firstButtons := 0, secondButtons := 0 } := by
    simp [feed, emptyAcc, USART1_RX_vect, parseLine, idx0, idx1, idx2, MAX_BUFFER,
      Function.update]
  rw [hf, hp]
  refine ⟨rfl, rfl, ?_, ?_, rfl⟩
  · rw [GetNextReport_Button]
    simp [buttonSpec_zero]
  · have hnib : ((0 : Byte).val >>> 4) &&& 0x0f = 0 := by decide
    rw [GetNextReport_HAT, hnib]
    simp [hatSpec]

/-- Witness for C10: the sentinel line on a snapshot with buttons and a hat
direction set. -/
theorem sentinel_reset_witness :
    lineOf 242 3 3 idx0 = 242 ∧ lineOf 242 3 3 idx1 = 3 ∧ lineOf 242 3 3 idx2 = 3 ∧
    (parseLine busySnapshot (lineOf 242 3 3) 3).firstButtons = 0 ∧
    (parseLine busySnapshot (lineOf 242 3 3) 3).secondButtons = 0 ∧
    (GetNextReport sampleHeader (parseLine busySnapshot (lineOf 242 3 3) 3) staleReport).Button
      = sampleHeader.SWITCH_RELEASE ∧
    (GetNextReport sampleHeader (parseLine busySnapshot (lineOf 242 3 3) 3) staleReport).HAT
      = sampleHeader.HAT_CENTER ∧
    (feed (emptyAcc busySnapshot) [242, 3, 3, 10]).snap =
      parseLine busySnapshot (lineOf 242 3 3) 3 :=
  ⟨by decide, by decide, by decide,
    sentinel_reset sampleHeader busySnapshot (lineOf 242 3 3) 3 staleReport
      (by decide) (by decide) (by decide)⟩

end Joystick

/-! ## Frame effects, defaults and bounds: theorems -/

namespace Joystick

/-- C11: `parseLine` on a line with tag 241 leaves both button groups unchanged,
and on a line with tag 242 leaves the analog field unchanged. -/
theorem tag_isolation (s : Snapshot) (axisLine digitalLine : Buffer) (count : Nat)
    (ha : axisLine idx0 = 241) (hd : digitalLine idx0 = 242) :
    (parseLine s axisLine count).firstButtons = s.firstButtons ∧
    (parseLine s axisLine count).secondButtons = s.secondButtons ∧
    (parseLine s digitalLine count).lastLX = s.lastLX := by
  refine ⟨?_, ?_, ?_⟩
  · simp [parseLine, ha]
  · simp [parseLine, ha]
  · by_cases h1 : digitalLine idx1 = 3 <;> by_cases h2 : digitalLine idx2 = 3 <;>
      simp [parseLine, hd, h1, h2]

/-- Witness for C11: an axis line and a digital line on a busy snapshot. -/
theorem tag_isolation_witness :
    lineOf 241 9 200 idx0 = 241 ∧ lineOf 242 0x10 0x80 idx0 = 242 ∧
    (parseLine busySnapshot (lineOf 241 9 200) 3).firstButtons = busySnapshot.firstButtons ∧
    (parseLine busySnapshot (lineOf 241 9 200) 3).secondButtons = busySnapshot.secondButtons ∧
    (parseLine busySnapshot (lineOf 242 0x10 0x80) 3).lastLX = busySnapshot.lastLX :=
  ⟨by decide, by decide,
    tag_isolation busySnapshot (lineOf 241 9 200) (lineOf 242 0x10 0x80) 3
      (by decide) (by decide)⟩

/-- C12: on a line whose first byte is neither 241 nor 242 (tag 240 with any
payload and the empty line, first byte 0, included) `parseLine` returns the
snapshot unchanged. -/
theorem unknown_tag_ignored (s : Snapshot) (line : Buffer) (count : Nat)
    (h1 : line idx0 ≠ 241) (h2 : line idx0 ≠ 242) :
    parseLine s line count = s := by
  by_cases h0 : line idx0 = 240 <;> simp [parseLine, h0, h1, h2]

/-- Witness for C12: tag 240 with a payload, on a busy snapshot. -/
theorem unknown_tag_ignored_witness :
    lineOf 240 200 3 idx0 ≠ 241 ∧ lineOf 240 200 3 idx0 ≠ 242 ∧
    parseLine busySnapshot (lineOf 240 200 3) 3 = busySnapshot :=
  ⟨by decide, by decide,
    unknown_tag_ignored busySnapshot (lineOf 240 200 3) 3 (by decide) (by decide)⟩

/-- C13: the report has LX = `lastLX` and LY = RX = RY = `STICK_CENTER`, whatever
the button groups are. -/
theorem stick_axes (H : Header) (s : Snapshot) (r : Report) :
    (GetNextReport H s r).LX = s.lastLX ∧
    (GetNextReport H s r).LY = H.STICK_CENTER ∧
    (GetNextReport H s r).RX = H.STICK_CENTER ∧
    (GetNextReport H s r).RY = H.STICK_CENTER :=
  GetNextReport_sticks H s r

/-- Every statement step leaves the globals alone. -/
theorem Machine.globals_steps (m : Machine) (v : Byte) (n : Nat) :
    m.memsetReport.globals = m.globals ∧ (m.setLX v).globals = m.globals ∧
    (m.setLY v).globals = m.globals ∧ (m.setRX v).globals = m.globals ∧
    (m.setRY v).globals = m.globals ∧ (m.setHAT n).globals = m.globals ∧
    (m.setButton n).globals = m.globals ∧ (m.orButton n).globals = m.globals :=
  ⟨rfl, rfl, rfl, rfl, rfl, rfl, rfl, rfl⟩

/-- `GetNextReport` on the machine never writes a global. -/
theorem GetNextReport_mem_globals (H : Header) (m : Machine) :
    (GetNextReport_mem H m).globals = m.globals := by
  simp only [GetNextReport_mem, Machine.memsetReport, Machine.setLX, Machine.setLY, Machine.setRX,
    Machine.setRY, Machine.setHAT, Machine.setButton, Machine.orButton,
    apply_ite Machine.globals, ite_self]

/-- After `GetNextReport` the bytes outside the named fields are those the
`memset` wrote. -/
theorem GetNextReport_mem_rest (H : Header) (m : Machine) :
    (GetNextReport_mem H m).report.rest = fun _ => 0 := by
  simp only [GetNextReport_mem, Machine.memsetReport, Machine.setLX, Machine.setLY, Machine.setRX,
    Machine.setRY, Machine.setHAT, Machine.setButton, Machine.orButton,
    apply_ite Machine.report, apply_ite ReportMem.rest, ite_self]

/-- The named fields after `GetNextReport` on the machine are the report of the
field-level `GetNextReport` on the snapshot. -/
theorem GetNextReport_mem_named (H : Header) (m : Machine) :
    (GetNextReport_mem H m).report.named = GetNextReport H m.globals.snap m.report.named := by
  simp only [GetNextReport_mem, GetNextReport, Machine.memsetReport, Machine.setLX, Machine.setLY, Machine.setRX,
    Machine.setRY, Machine.setHAT, Machine.setButton, Machine.orButton,
    apply_ite Machine.globals, apply_ite Machine.report, apply_ite ReportMem.named, ite_self]

/-- The field-level report does not depend on the fields it is given: each of
the six is assigned before it is read. -/
theorem GetNextReport_prior (H : Header) (s : Snapshot) (r r' : Report) :
    GetNextReport H s r' = GetNextReport H s r := by
  simp only [GetNextReport]

/-- The whole effect of `GetNextReport` on the machine: globals kept, the named
fields set from the snapshot, every other byte of the report cleared. -/
theorem GetNextReport_mem_eq (H : Header) (m : Machine) :
    GetNextReport_mem H m =
      { globals := m.globals
        report := { named := GetNextReport H m.globals.snap m.report.named
                    rest := fun _ => 0 } } := by
  have h1 := GetNextReport_mem_globals H m
  have h2 := GetNextReport_mem_rest H m
  have h3 := GetNextReport_mem_named H m
  rcases hm : GetNextReport_mem H m with ⟨g, ⟨nm, rs⟩⟩
  rw [hm] at h1 h2 h3
  simp only at h1 h2 h3
  subst h1 h2 h3
  rfl

/-- C14: `GetNextReport`, run on the memory it can reach, leaves every global as
it was, `lastLX`, `firstButtons` and `secondButtons` among them; the report it
writes is the same for two machines with the same snapshot, whatever their
report objects held before; a second call with no decode in between changes
nothing, and a second call into another report object writes the same report.
Its named fields are those of the field-level `GetNextReport`. -/
theorem synthesis_is_pure (H : Header) (m m' : Machine)
    (hs : m'.globals.snap = m.globals.snap) :
    (GetNextReport_mem H m).globals = m.globals ∧
    ((GetNextReport_mem H m).globals.snap.lastLX = m.globals.snap.lastLX ∧
      (GetNextReport_mem H m).globals.snap.firstButtons = m.globals.snap.firstButtons ∧
      (GetNextReport_mem H m).globals.snap.secondButtons = m.globals.snap.secondButtons) ∧
    (GetNextReport_mem H m').report = (GetNextReport_mem H m).report ∧
    GetNextReport_mem H (GetNextReport_mem H m) = GetNextReport_mem H m ∧
    (GetNextReport_mem H
      { globals := (GetNextReport_mem H m).globals, report := m'.report }).report =
      (GetNextReport_mem H m).report ∧
    (GetNextReport_mem H m).report.named = GetNextReport H m.globals.snap m.report.named := by
  have hg := GetNextReport_mem_globals H m
  have indep : ∀ r r' : Report,
      GetNextReport H m.globals.snap r' = GetNextReport H m.globals.snap r :=
    fun r r' => GetNextReport_prior H m.globals.snap r r'
  refine ⟨hg, ⟨by rw [hg], by rw [hg], by rw [hg]⟩, ?_, ?_, ?_, GetNextReport_mem_named H m⟩
  · rw [GetNextReport_mem_eq H m', GetNextReport_mem_eq H m, hs,
      indep m.report.named m'.report.named]
  · rw [GetNextReport_mem_eq H (GetNextReport_mem H m), hg, GetNextReport_mem_named,
      indep m.report.named (GetNextReport H m.globals.snap m.report.named)]
    exact (GetNextReport_mem_eq H m).symm
  · rw [GetNextReport_mem_eq H ⟨(GetNextReport_mem H m).globals, m'.report⟩, hg,
      GetNextReport_mem_eq H m, indep m.report.named m'.report.named]

/-- Witness for C14: two machines with the same snapshot, different accumulators
and different stale report objects. -/
theorem synthesis_is_pure_witness :
    freshMachine.globals.snap = staleMachine.globals.snap ∧
    (GetNextReport_mem sampleHeader staleMachine).globals = staleMachine.globals ∧
    (GetNextReport_mem sampleHeader freshMachine).report =
      (GetNextReport_mem sampleHeader staleMachine).report ∧
    GetNextReport_mem sampleHeader (GetNextReport_mem sampleHeader staleMachine) =
      GetNextReport_mem sampleHeader staleMachine :=
  ⟨rfl, (synthesis_is_pure sampleHeader staleMachine freshMachine rfl).1,
    (synthesis_is_pure sampleHeader staleMachine freshMachine rfl).2.2.1,
    (synthesis_is_pure sampleHeader staleMachine freshMachine rfl).2.2.2.1⟩

/-- C15: at start-up the snapshot is `STICK_CENTER`, 0, 0, and the report
synthesised from it has all four stick fields at `STICK_CENTER`, the hat centred
and the mask `SWITCH_RELEASE`. -/
theorem defaults_when_never_set (H : Header) (r : Report) :
    (init H).snap.lastLX = H.STICK_CENTER ∧
    (init H).snap.firstButtons = 0 ∧
    (init H).snap.secondButtons = 0 ∧
    (GetNextReport H (init H).snap r).LX = H.STICK_CENTER ∧
    (GetNextReport H (init H).snap r).LY = H.STICK_CENTER ∧
    (GetNextReport H (init H).snap r).RX = H.STICK_CENTER ∧
    (GetNextReport H (init H).snap r).RY = H.STICK_CENTER ∧
    (GetNextReport H (init H).snap r).HAT = H.HAT_CENTER ∧
    (GetNextReport H (init H).snap r).Button = H.SWITCH_RELEASE := by
  obtain ⟨hx, hy, hrx, hry⟩ := GetNextReport_sticks H (init H).snap r
  refine ⟨rfl, rfl, rfl, hx, hy, hrx, hry, ?_, ?_⟩
  · have hnib : ((0 : Byte).val >>> 4) &&& 0x0f = 0 := by decide
    rw [GetNextReport_HAT]
    show hatSpec H (((0 : Byte).val >>> 4) &&& 0x0f) = H.HAT_CENTER
    rw [hnib]
    simp [hatSpec]
  · rw [GetNextReport_Button]
    show H.SWITCH_RELEASE ||| buttonSpec H 0 0 = H.SWITCH_RELEASE
    simp [buttonSpec_zero]

/-- C16: the interrupt on any byte other than newline leaves the snapshot
unchanged (the decoder runs only on newline), and on a carriage return it leaves
the buffer and the length counter unchanged as well. -/
theorem no_partial_frames (g : Globals) (c : Byte) (hc : c ≠ 10) :
    (USART1_RX_vect g c).snap = g.snap ∧
    (USART1_RX_vect g 13).snap = g.snap ∧
    (USART1_RX_vect g 13).b = g.b ∧
    (USART1_RX_vect g 13).l = g.l := by
  have h13 : USART1_RX_vect g 13 = g := by
    simp [USART1_RX_vect]
  refine ⟨?_, by rw [h13], by rw [h13], by rw [h13]⟩
  by_cases hr : c = 13
  · rw [hr, h13]
  · rw [USART1_RX_vect_store g c hc hr]

/-- Witness for C16: the byte 242, a tag, arriving in the middle of a line. -/
theorem no_partial_frames_witness :
    (242 : Byte) ≠ 10 ∧
    (USART1_RX_vect midLine 242).snap = midLine.snap ∧
    (USART1_RX_vect midLine 13).snap = midLine.snap ∧
    (USART1_RX_vect midLine 13).b = midLine.b ∧
    (USART1_RX_vect midLine 13).l = midLine.l :=
  ⟨by decide, no_partial_frames midLine 242 (by decide)⟩

/-- C17: after the interrupt has processed a newline the accumulator is empty:
the length counter is 0 and every byte of the buffer is 0, whatever the line
held. -/
theorem reset_after_terminator (g : Globals) :
    (USART1_RX_vect g 10).l = 0 ∧
    (USART1_RX_vect g 10).l.val = 0 ∧
    ∀ i : Fin MAX_BUFFER, (USART1_RX_vect g 10).b i = 0 := by
  rw [USART1_RX_vect_newline]
  exact ⟨rfl, rfl, fun _ => rfl⟩

/-- Shifting right by three forgets a flip of bit 2. -/
theorem xor_four_shiftRight_three (n : Nat) : (n ^^^ 4) >>> 3 = n >>> 3 := by
  apply Nat.eq_of_testBit_eq
  intro j
  have h4 : (4 : Nat) = 2 ^ 2 := rfl
  have hne : (2 : Nat) ≠ 3 + j := by omega
  rw [Nat.testBit_shiftRight, Nat.testBit_shiftRight, Nat.testBit_xor, h4,
    Nat.testBit_two_pow_of_ne hne]
  simp

/-- The report is a function of `lastLX`, of the first group without its bits
0..2 and of the second group without its bits 0..1. -/
theorem GetNextReport_congr (H : Header) (s s' : Snapshot) (r r' : Report)
    (hlx : s'.lastLX = s.lastLX)
    (hf : s'.firstButtons.val >>> 3 = s.firstButtons.val >>> 3)
    (hs : s'.secondButtons.val >>> 2 = s.secondButtons.val >>> 2) :
    GetNextReport H s' r' = GetNextReport H s r := by
  have sh : ∀ (n a b : Nat), n >>> (a + b) = (n >>> a) >>> b := fun n a b =>
    Nat.shiftRight_add n a b
  have f4 : s'.firstButtons.val >>> 4 = s.firstButtons.val >>> 4 := by
    rw [sh _ 3 1, sh _ 3 1, hf]
  have s3 : s'.secondButtons.val >>> 3 = s.secondButtons.val >>> 3 := by
    rw [sh _ 2 1, sh _ 2 1, hs]
  have s4 : s'.secondButtons.val >>> 4 = s.secondButtons.val >>> 4 := by
    rw [sh _ 2 2, sh _ 2 2, hs]
  have s5 : s'.secondButtons.val >>> 5 = s.secondButtons.val >>> 5 := by
    rw [sh _ 2 3, sh _ 2 3, hs]
  have s6 : s'.secondButtons.val >>> 6 = s.secondButtons.val >>> 6 := by
    rw [sh _ 2 4, sh _ 2 4, hs]
  have s7 : s'.secondButtons.val >>> 7 = s.secondButtons.val >>> 7 := by
    rw [sh _ 2 5, sh _ 2 5, hs]
  simp only [GetNextReport, ite_self, hlx, hf, f4, hs, s3, s4, s5, s6, s7]

/-- C18: the report depends on the button groups only through bits 3..7 of the
first group and bits 2..7 of the second: two snapshots with the same `lastLX`
that agree on those bits get the same report, and flipping bit 2 of the first
group leaves the report unchanged. -/
theorem unmapped_bits_no_effect (H : Header) (s s' : Snapshot) (r r' : Report)
    (hlx : s'.lastLX = s.lastLX)
    (hf : s'.firstButtons.val >>> 3 = s.firstButtons.val >>> 3)
    (hs : s'.secondButtons.val >>> 2 = s.secondButtons.val >>> 2) :
    GetNextReport H s' r' = GetNextReport H s r ∧
    GetNextReport H { s with firstButtons := s.firstButtons ^^^ 4 } r = GetNextReport H s r := by
  refine ⟨GetNextReport_congr H s s' r r' hlx hf hs, ?_⟩
  refine GetNextReport_congr H s { s with firstButtons := s.firstButtons ^^^ 4 } r r
    rfl ?_ rfl
  have hv : (s.firstButtons ^^^ 4).val = (s.firstButtons.val ^^^ 4) % 256 := rfl
  have hpow : s.firstButtons.val ^^^ 4 < 2 ^ 8 :=
    Nat.xor_lt_two_pow s.firstButtons.isLt (by decide)
  have hlt : s.firstButtons.val ^^^ 4 < 256 := hpow
  show (s.firstButtons ^^^ 4).val >>> 3 = s.firstButtons.val >>> 3
  rw [hv, Nat.mod_eq_of_lt hlt, xor_four_shiftRight_three]

/-- Witness for C18: two snapshots that differ in `lastLY`, bits 0..2 of the
first group and bits 0..1 of the second group. -/
theorem unmapped_bits_no_effect_witness :
    lowBitsSnapshot.lastLX = busySnapshot.lastLX ∧
    lowBitsSnapshot.firstButtons.val >>> 3 = busySnapshot.firstButtons.val >>> 3 ∧
    lowBitsSnapshot.secondButtons.val >>> 2 = busySnapshot.secondButtons.val >>> 2 ∧
    GetNextReport sampleHeader lowBitsSnapshot staleReport =
      GetNextReport sampleHeader busySnapshot staleReport ∧
    GetNextReport sampleHeader
      { busySnapshot with firstButtons := busySnapshot.firstButtons ^^^ 4 } staleReport =
      GetNextReport sampleHeader busySnapshot staleReport :=
  ⟨by decide, by decide, by decide,
    unmapped_bits_no_effect sampleHeader busySnapshot lowBitsSnapshot staleReport staleReport
      (by decide) (by decide) (by decide)⟩

/-- The 256 bytes of `overflowHead`. -/
theorem overflowHead_length : overflowHead.length = 256 := by
  simp only [overflowHead, List.length_cons, List.length_replicate]

/-- No byte of `overflowHead` is a newline or a carriage return. -/
theorem overflowHead_stored : ∀ c ∈ overflowHead, c ≠ 10 ∧ c ≠ 13 := by
  intro c hc
  simp only [overflowHead, List.mem_cons, List.mem_replicate] at hc
  rcases hc with rfl | rfl | ⟨_, rfl⟩ <;> decide

/-- C19: in every state reached from start-up the 8-bit counter is below
`MAX_BUFFER`, and the positions 0, 1, 2 read by `parseLine` are inside the
buffer; the counter advances modulo 256: after the k stored bytes `xs` of a line
(begun with `l = 0`) the counter is k mod 256 and the next stored byte is
written at index k mod 256, nowhere else. -/
theorem counter_stays_in_bounds (H : Header) (bytes xs : List Byte) (x : Byte) (g : Globals)
    (hl : g.l.val = 0) (hxs : ∀ c ∈ xs, c ≠ 10 ∧ c ≠ 13) (hn : x ≠ 10) (hr : x ≠ 13) :
    (feed (init H) bytes).l.val < MAX_BUFFER ∧
    (idx0.val = 0 ∧ idx1.val = 1 ∧ idx2.val = 2 ∧ 2 < MAX_BUFFER) ∧
    (feed g xs).l.val = xs.length % 256 ∧
    ∃ h : xs.length % 256 < MAX_BUFFER,
      (feed g (xs ++ [x])).b = Function.update (feed g xs).b ⟨xs.length % 256, h⟩ x := by
  have hk : (feed g xs).l.val = xs.length % 256 := by
    rw [(feed_stored_snap_l xs g hxs).2, hl, Nat.zero_add]
  have hb : xs.length % 256 < MAX_BUFFER :=
    lt_trans (Nat.mod_lt _ (by decide)) (by decide)
  refine ⟨lt_trans (feed (init H) bytes).l.isLt (by decide),
    ⟨rfl, rfl, rfl, by decide⟩, hk, hb, ?_⟩
  have e : (⟨(feed g xs).l.val, lt_trans (feed g xs).l.isLt (by decide)⟩ : Fin MAX_BUFFER)
      = ⟨xs.length % 256, hb⟩ := Fin.ext hk
  rw [feed_append, feed_cons, feed_nil, USART1_RX_vect_store _ x hn hr, ← e]

/-- Witness for C19: a line of 256 stored bytes, after which the counter is 0
again and the byte 77 is written at index 0. -/
theorem counter_stays_in_bounds_witness :
    (emptyAcc busySnapshot).l.val = 0 ∧ (∀ c ∈ overflowHead, c ≠ 10 ∧ c ≠ 13) ∧
    (77 : Byte) ≠ 10 ∧ (77 : Byte) ≠ 13 ∧
    (feed (init sampleHeader) [241, 200, 10, 65]).l.val < MAX_BUFFER ∧
    (idx0.val = 0 ∧ idx1.val = 1 ∧ idx2.val = 2 ∧ 2 < MAX_BUFFER) ∧
    (feed (emptyAcc busySnapshot) overflowHead).l.val = overflowHead.length % 256 ∧
    ∃ h : overflowHead.length % 256 < MAX_BUFFER,
      (feed (emptyAcc busySnapshot) (overflowHead ++ [77])).b =
        Function.update (feed (emptyAcc busySnapshot) overflowHead).b
          ⟨overflowHead.length % 256, h⟩ 77 :=
  ⟨rfl, overflowHead_stored, by decide, by decide,
    counter_stays_in_bounds sampleHeader [241, 200, 10, 65] overflowHead 77
      (emptyAcc busySnapshot) rfl overflowHead_stored (by decide) (by decide)⟩

end Joystick
